import Mathlib

/-!
Verification of the AI-based internship allocation engine.

The engine is embedded shallowly: Python floats become exact rationals
(every constant in the scorer is a decimal fraction, exactly representable
in `ℚ`), Python lists become `List`, the case-insensitive string operations
become operations on lowercased character lists, and the two stable
descending sorts (Python `list.sort(key=score, reverse=True)`, which is a
stable sort) become `List.insertionSort` with the reflexive total relation
`matchGE`, which is extensionally the same list for any stable sort by the
same key.  Timestamps (`datetime.now()`) are modelled by an explicit `now`
parameter stamped on every match of a run.
-/

/-- Lowercase an ASCII string, mirroring `str.lower()` on the ASCII
alphabets the engine's constants use. -/
def lcStr (s : String) : String := ⟨s.data.map Char.toLower⟩

/-- Decidable prefix test on character lists. -/
def isPrefixB : List Char → List Char → Bool
  | [], _ => true
  | _ :: _, [] => false
  | x :: xs, y :: ys => x == y && isPrefixB xs ys

/-- Decidable contiguous-substring test, mirroring Python's `in` on strings. -/
def isInfixB (a : List Char) : List Char → Bool
  | [] => isPrefixB a []
  | y :: ys => isPrefixB a (y :: ys) || isInfixB a ys

/-- Substring test on strings after lowercasing, mirroring
`a.lower() in b.lower()`. -/
def containsCI (b a : String) : Bool := isInfixB (lcStr a).data (lcStr b).data

/-- Python's `str.split()` with no separator: split on whitespace runs,
dropping empty tokens.  Accumulator-based, structural on the input. -/
def pySplitAux (acc : List Char) : List Char → List (List Char)
  | [] => if acc.isEmpty then [] else [acc.reverse]
  | c :: rest =>
    if c.isWhitespace then
      if acc.isEmpty then pySplitAux [] rest else acc.reverse :: pySplitAux [] rest
    else pySplitAux (c :: acc) rest

/-- Tokenize a string as Python's `str.split()` does. -/
def pySplit (s : String) : List (List Char) := pySplitAux [] s.data

/-- `Candidate` record (src/code.py, `@dataclass Candidate`). -/
structure Candidate where
  id : Int
  name : String
  skills : List String
  qualifications : String
  location : String
  sector : String
  category : String
  district : String
  past_participation : Bool
  cgpa : ℚ
  experience : String
  email : String := ""
  phone : String := ""
deriving Repr, DecidableEq

/-- `Internship` record (src/code.py, `@dataclass Internship`). -/
structure Internship where
  id : Int
  company : String
  title : String
  required_skills : List String
  location : String
  sector : String
  capacity : Int
  preferred_qualification : String
  stipend : Int
  duration : String
  type : String
  description : String := ""
deriving Repr, DecidableEq

/-- `Match` record (src/code.py, `@dataclass Match`); the factor breakdown
dict becomes an association list in insertion order. -/
structure Match where
  candidate_id : Int
  internship_id : Int
  score : ℚ
  factors : List (String × ℚ)
  status : String
  timestamp : Nat
deriving Repr, DecidableEq

/-- The fixed weights of `AIMatchingEngine.__init__`. -/
def weight_skills : ℚ := 40/100
def weight_location : ℚ := 20/100
def weight_sector : ℚ := 15/100
def weight_qualification : ℚ := 10/100
def weight_diversity : ℚ := 10/100
def weight_academic : ℚ := 5/100

/-- `AIMatchingEngine.aspirational_districts`. -/
def aspirational_districts : List String :=
  ["Rural Karnataka", "Sabarkantha", "Adilabad", "Dantewada",
   "Naxalbari", "Kalahandi", "Nuapada", "Koraput"]

/-- The fixed `skill_groups` table of `AIMatchingEngine._are_similar_skills`. -/
def skill_groups : List (List String) :=
  [["python", "java", "javascript", "c++", "coding", "programming"],
   ["data analysis", "analytics", "sql", "database", "data science"],
   ["ui/ux", "figma", "photoshop", "design", "prototyping"],
   ["marketing", "social media", "content writing", "seo"],
   ["finance", "accounting", "excel", "financial modeling"]]

/-- `AIMatchingEngine._are_similar_skills`: both lowercased labels occur in
the same domain group. -/
def are_similar_skills (skill1 skill2 : String) : Bool :=
  skill_groups.any fun group =>
    group.contains (lcStr skill1) && group.contains (lcStr skill2)

/-- The inner loop of `calculate_skills_match` for one required skill:
scan candidate skills in order, break on the first one related at any
level, contributing 1, 0.7 or 0.5. -/
def matchOneSkill (req : String) : List String → ℚ
  | [] => 0
  | cand :: rest =>
    if lcStr req = lcStr cand then 1
    else if isInfixB (lcStr req).data (lcStr cand).data
            || isInfixB (lcStr cand).data (lcStr req).data then 7/10
    else if are_similar_skills req cand then 1/2
    else matchOneSkill req rest

/-- `AIMatchingEngine.calculate_skills_match`. -/
def calculate_skills_match (candidate_skills required_skills : List String) : ℚ :=
  if candidate_skills = [] ∨ required_skills = [] then 0
  else
    min (((required_skills.map fun req => matchOneSkill req candidate_skills).sum)
          / (required_skills.length : ℚ)) 1

/-- The fixed `state_mapping` of `calculate_location_score`. -/
def state_mapping : List (String × String) :=
  [("delhi", "delhi"), ("mumbai", "maharashtra"), ("bangalore", "karnataka"),
   ("hyderabad", "telangana"), ("ahmedabad", "gujarat"), ("pune", "maharashtra"),
   ("kolkata", "west bengal"), ("chennai", "tamil nadu")]

/-- `AIMatchingEngine.calculate_location_score`. -/
def calculate_location_score (candidate_location internship_location : String) : ℚ :=
  if lcStr candidate_location = lcStr internship_location then 1
  else
    match state_mapping.lookup (lcStr candidate_location),
          state_mapping.lookup (lcStr internship_location) with
    | some cand_state, some intern_state =>
        if cand_state = intern_state then 7/10 else 3/10
    | _, _ => 3/10

/-- `AIMatchingEngine.calculate_diversity_score`. -/
def calculate_diversity_score (candidate : Candidate) : ℚ :=
  min
    ((if candidate.category = "SC" ∨ candidate.category = "ST" then 1/2
      else if candidate.category = "OBC" then 3/10 else 0)
     + (if aspirational_districts.any (fun district => containsCI candidate.district district)
        then 3/10 else 0)
     + (if containsCI candidate.district "rural" then 1/5 else 0)
     + (if ¬candidate.past_participation then 1/5 else 0))
    1

/-- The sector factor of `calculate_match_score`. -/
def sector_score (candidate : Candidate) (internship : Internship) : ℚ :=
  if lcStr candidate.sector = lcStr internship.sector then 1 else 3/10

/-- The qualification factor of `calculate_match_score`: any whitespace
token of the preferred qualification occurring in the candidate's
qualification text scores 1.0, else 0.5. -/
def qualification_score (candidate : Candidate) (internship : Internship) : ℚ :=
  if (pySplit (lcStr internship.preferred_qualification)).any
       (fun word => isInfixB word (lcStr candidate.qualifications).data)
  then 1 else 1/2

/-- The academic factor of `calculate_match_score`. -/
def academic_score (candidate : Candidate) : ℚ :=
  min (candidate.cgpa / 10) 1

/-- `AIMatchingEngine.calculate_match_score`: the aggregate score (capped
at 100) together with the factor breakdown (each raw sub-score × 100). -/
def calculate_match_score (candidate : Candidate) (internship : Internship) :
    ℚ × List (String × ℚ) :=
  let skills := calculate_skills_match candidate.skills internship.required_skills
  let location := calculate_location_score candidate.location internship.location
  let sector := sector_score candidate internship
  let qual := qualification_score candidate internship
  let diversity := calculate_diversity_score candidate
  let academic := academic_score candidate
  let factors := [("skills", skills * 100), ("location", location * 100),
                  ("sector", sector * 100), ("qualification", qual * 100),
                  ("diversity", diversity * 100), ("academic", academic * 100)]
  let total := (skills * weight_skills + location * weight_location
               + sector * weight_sector + qual * weight_qualification
               + diversity * weight_diversity + academic * weight_academic) * 100
  (min total 100, factors)

/-- Round-half-to-even to the nearest integer, the tie rule of Python's
`round`. -/
def roundHalfEven (q : ℚ) : ℤ :=
  if q - ⌊q⌋ < 1/2 then ⌊q⌋
  else if q - ⌊q⌋ > 1/2 then ⌊q⌋ + 1
  else if ⌊q⌋ % 2 = 0 then ⌊q⌋ else ⌊q⌋ + 1

/-- Python's `round(x, 1)`: round to one decimal, ties to even. -/
def round1 (q : ℚ) : ℚ := (roundHalfEven (q * 10) : ℚ) / 10

/-- The status tier of `run_matching_algorithm`, computed from the
(unrounded) aggregate score. -/
def matchStatus (score : ℚ) : String :=
  if score ≥ 70 then "excellent" else if score ≥ 50 then "good" else "fair"

/-- The `Match` built by `run_matching_algorithm` for one pair: the status
comes from the unrounded score, the stored score is rounded to one
decimal. -/
def mkMatch (now : Nat) (candidate : Candidate) (internship : Internship) : Match :=
  let sf := calculate_match_score candidate internship
  { candidate_id := candidate.id
    internship_id := internship.id
    score := round1 sf.1
    factors := sf.2
    status := matchStatus sf.1
    timestamp := now }

/-- One candidate scored against every internship, in iteration order. -/
def candidateMatches (now : Nat) (candidate : Candidate)
    (internships : List Internship) : List Match :=
  internships.map (mkMatch now candidate)

/-- The descending order used by both sorts: earlier means
greater-or-equal score. -/
def matchGE (a b : Match) : Prop := b.score ≤ a.score

instance : DecidableRel matchGE := fun a b => inferInstanceAs (Decidable (b.score ≤ a.score))

instance : IsTotal Match matchGE := ⟨fun a b => le_total b.score a.score⟩

instance : IsTrans Match matchGE := ⟨fun _ _ _ h h2 => le_trans h2 h⟩

instance : IsRefl Match matchGE := ⟨fun a => le_refl a.score⟩

/-- Stable descending sort by score: `list.sort(key=lambda x: x.score,
reverse=True)`. -/
def sortDesc (l : List Match) : List Match := l.insertionSort matchGE

/-- The list of retained matches before the final global sort: each
candidate's matches sorted descending, truncated to the top 3, in
candidate iteration order. -/
def collectTop (now : Nat) (candidates : List Candidate)
    (internships : List Internship) : List Match :=
  (candidates.map fun c => (sortDesc (candidateMatches now c internships)).take 3).flatten

/-- `PMInternshipSystem.run_matching_algorithm` on an in-memory snapshot:
score the full cross product, keep each candidate's top 3, sort the
combined list by score descending. -/
def run_matching_algorithm (now : Nat) (candidates : List Candidate)
    (internships : List Internship) : List Match :=
  sortDesc (collectTop now candidates internships)

/- The Batteries rational-number operations are `@[irreducible]`; ground
evaluation of the engine on concrete inputs needs them unfolded. -/
attribute [local semireducible] Rat.add Rat.mul Rat.sub Rat.inv

/-! ## Specification-side definitions

These follow the wording of the specification (and of the claims derived
from it), to be compared with the definitions embedded from the source. -/

/-- Location sub-score as the spec words it: 1.0 on case-insensitive
equality, else 0.7 when both locations map via the fixed city-to-state
lookup to the same state, else a 0.3 baseline. -/
def location_score_spec (candidate_location internship_location : String) : ℚ :=
  if lcStr candidate_location = lcStr internship_location then 1
  else if state_mapping.lookup (lcStr candidate_location) ≠ none
          ∧ state_mapping.lookup (lcStr candidate_location)
            = state_mapping.lookup (lcStr internship_location) then 7/10
  else 3/10

/-- The four diversity bonuses as the claim lists them. -/
def diversity_bonuses (candidate : Candidate) : List ℚ :=
  [if candidate.category = "SC" ∨ candidate.category = "ST" then 1/2
   else if candidate.category = "OBC" then 3/10 else 0,
   if aspirational_districts.any (fun district => containsCI candidate.district district)
   then 3/10 else 0,
   if containsCI candidate.district "rural" then 1/5 else 0,
   if ¬candidate.past_participation then 1/5 else 0]

/-- Diversity sub-score as the spec words it: the sum of the four
bonuses, capped at 1.0. -/
def diversity_score_spec (candidate : Candidate) : ℚ :=
  min (diversity_bonuses candidate).sum 1

/-- A candidate skill is related to a required skill when any of the
three relatedness levels applies. -/
def relatedCI (req cand : String) : Bool :=
  decide (lcStr req = lcStr cand)
  || (isInfixB (lcStr req).data (lcStr cand).data
      || isInfixB (lcStr cand).data (lcStr req).data)
  || are_similar_skills req cand

/-- Per-required-skill contribution as the claim words it: the first
candidate skill related at any level contributes 1.0 on case-insensitive
equality, 0.7 on substring overlap, 0.5 on a shared domain group. -/
def skill_contribution_spec (req : String) (candidate_skills : List String) : ℚ :=
  match candidate_skills.find? (relatedCI req) with
  | none => 0
  | some cand =>
    if lcStr req = lcStr cand then 1
    else if isInfixB (lcStr req).data (lcStr cand).data
            || isInfixB (lcStr cand).data (lcStr req).data then 7/10
    else 1/2

/-- Skills sub-score as the claim words it: zero when either list is
empty, else the per-required contributions summed, divided by the number
of required skills, capped at 1.0. -/
def calculate_skills_match_spec (candidate_skills required_skills : List String) : ℚ :=
  if candidate_skills = [] ∨ required_skills = [] then 0
  else
    min (((required_skills.map fun req => skill_contribution_spec req candidate_skills).sum)
          / (required_skills.length : ℚ)) 1

/-! ## Claim C6: location sub-score -/

theorem location_score_eq_spec (candidate_location internship_location : String) :
    calculate_location_score candidate_location internship_location
      = location_score_spec candidate_location internship_location := by
  unfold calculate_location_score location_score_spec
  rcases hc : state_mapping.lookup (lcStr candidate_location) with _ | cs <;>
    rcases hi : state_mapping.lookup (lcStr internship_location) with _ | is_ <;>
      split_ifs <;> simp_all

theorem location_score_ge_baseline (candidate_location internship_location : String) :
    3/10 ≤ calculate_location_score candidate_location internship_location := by
  unfold calculate_location_score
  split_ifs with h
  · norm_num
  · split
    · split_ifs <;> norm_num
    · norm_num

/-- Claim C6: for every pair of location strings the location sub-score
is 1.0 on case-insensitive equality, else 0.7 when both map via the fixed
city-to-state lookup to the same state, else 0.3; in particular it is
never below 0.3. -/
theorem C6_location_score (candidate_location internship_location : String) :
    calculate_location_score candidate_location internship_location
      = location_score_spec candidate_location internship_location
    ∧ 3/10 ≤ calculate_location_score candidate_location internship_location :=
  ⟨location_score_eq_spec candidate_location internship_location,
   location_score_ge_baseline candidate_location internship_location⟩

/-! ## Claim C7: diversity sub-score -/

/-- Claim C7: the diversity sub-score is the capped sum of the category,
aspirational-district, rural and first-time bonuses; a candidate with
category "SC", a district containing a listed aspirational district and
no past participation scores exactly 1.0. -/
theorem C7_diversity_score (candidate : Candidate) :
    calculate_diversity_score candidate = diversity_score_spec candidate
    ∧ (candidate.category = "SC"
       → aspirational_districts.any (fun district => containsCI candidate.district district) = true
       → candidate.past_participation = false
       → calculate_diversity_score candidate = 1) := by
  constructor
  · simp [calculate_diversity_score, diversity_score_spec, diversity_bonuses]
    ring_nf
  · intro hcat hdist hpast
    unfold calculate_diversity_score
    apply min_eq_right
    simp [hcat, hdist, hpast]
    split_ifs <;> norm_num

/-- Witness for C7 at a concrete candidate. -/
theorem C7_diversity_score_witness :
    ({ id := 7, name := "W", skills := [], qualifications := "", location := "",
       sector := "", category := "SC", district := "Sabarkantha",
       past_participation := false, cgpa := 8, experience := "" } : Candidate).category = "SC"
    ∧ calculate_diversity_score
        { id := 7, name := "W", skills := [], qualifications := "", location := "",
          sector := "", category := "SC", district := "Sabarkantha",
          past_participation := false, cgpa := 8, experience := "" } = 1 :=
  ⟨by decide,
   (C7_diversity_score _).2 (by decide) (by decide) (by decide)⟩

/-! ## Claim C10: empty preferred-qualification text -/

/-- All-whitespace character lists tokenize to nothing. -/
theorem pySplitAux_nil_of_whitespace (s : List Char)
    (h : ∀ ch ∈ s, ch.isWhitespace) : pySplitAux [] s = [] := by
  induction s with
  | nil => rfl
  | cons c rest ih =>
    have hc : c.isWhitespace := h c (List.mem_cons_self c rest)
    simp only [pySplitAux, hc, if_pos, List.isEmpty_nil]
    exact ih fun ch hch => h ch (List.mem_cons_of_mem c hch)

/-- Lowercasing by `Char.toLower` keeps whitespace characters. -/
theorem toLower_whitespace {c : Char} (h : c.isWhitespace) :
    c.toLower.isWhitespace := by
  have : c = ' ' ∨ c = '\t' ∨ c = '\r' ∨ c = '\n' := by
    simpa [Char.isWhitespace, or_assoc] using h
  rcases this with h' | h' | h' | h' <;> subst h' <;> decide

/-- Claim C10: when the preferred-qualification text is empty or
whitespace-only it splits into zero tokens, and the qualification
sub-score is 0.5, not 1.0. -/
theorem C10_empty_qualification_tokens (candidate : Candidate) (internship : Internship)
    (h : ∀ ch ∈ internship.preferred_qualification.data, ch.isWhitespace) :
    pySplit (lcStr internship.preferred_qualification) = []
    ∧ qualification_score candidate internship = 1/2
    ∧ qualification_score candidate internship ≠ 1 := by
  have htokens : pySplit (lcStr internship.preferred_qualification) = [] := by
    apply pySplitAux_nil_of_whitespace
    intro ch hch
    simp only [lcStr, List.mem_map] at hch
    obtain ⟨ch', hch', rfl⟩ := hch
    exact toLower_whitespace (h ch' hch')
  refine ⟨htokens, ?_, ?_⟩ <;> simp [qualification_score, htokens]

/-! ## Sub-score bounds -/

theorem matchOneSkill_nonneg (req : String) (cands : List String) :
    0 ≤ matchOneSkill req cands := by
  induction cands with
  | nil => simp [matchOneSkill]
  | cons c rest ih => unfold matchOneSkill; split_ifs <;> norm_num <;> exact ih

theorem skills_match_nonneg (cs rs : List String) : 0 ≤ calculate_skills_match cs rs := by
  unfold calculate_skills_match
  split_ifs with h
  · exact le_refl 0
  · refine le_min (div_nonneg ?_ (Nat.cast_nonneg _)) (by norm_num)
    exact List.sum_nonneg fun q hq => by
      obtain ⟨r, _, rfl⟩ := List.mem_map.mp hq
      exact matchOneSkill_nonneg r cs

theorem skills_match_le_one (cs rs : List String) : calculate_skills_match cs rs ≤ 1 := by
  unfold calculate_skills_match
  split_ifs with h
  · norm_num
  · exact min_le_right _ _

theorem location_score_nonneg (a b : String) : 0 ≤ calculate_location_score a b :=
  le_trans (by norm_num) (location_score_ge_baseline a b)

theorem location_score_le_one (a b : String) : calculate_location_score a b ≤ 1 := by
  unfold calculate_location_score
  split_ifs with h
  · exact le_refl 1
  · split
    · split_ifs <;> norm_num
    · norm_num

theorem sector_score_bounds (c : Candidate) (i : Internship) :
    0 ≤ sector_score c i ∧ sector_score c i ≤ 1 := by
  unfold sector_score; split_ifs <;> norm_num

theorem qualification_score_bounds (c : Candidate) (i : Internship) :
    0 ≤ qualification_score c i ∧ qualification_score c i ≤ 1 := by
  unfold qualification_score; split_ifs <;> norm_num

theorem diversity_score_nonneg (c : Candidate) : 0 ≤ calculate_diversity_score c := by
  unfold calculate_diversity_score
  refine le_min ?_ (by norm_num)
  have h1 : (0:ℚ) ≤ if c.category = "SC" ∨ c.category = "ST" then 1/2
      else if c.category = "OBC" then 3/10 else 0 := by split_ifs <;> norm_num
  have h2 : (0:ℚ) ≤ if aspirational_districts.any
      (fun district => containsCI c.district district) then 3/10 else 0 := by
    split_ifs <;> norm_num
  have h3 : (0:ℚ) ≤ if containsCI c.district "rural" then 1/5 else 0 := by
    split_ifs <;> norm_num
  have h4 : (0:ℚ) ≤ if ¬c.past_participation then 1/5 else 0 := by
    split_ifs <;> norm_num
  linarith

theorem diversity_score_le_one (c : Candidate) : calculate_diversity_score c ≤ 1 :=
  min_le_right _ _

theorem academic_score_nonneg (c : Candidate) (h : 0 ≤ c.cgpa) : 0 ≤ academic_score c :=
  le_min (by positivity) (by norm_num)

theorem academic_score_le_one (c : Candidate) : academic_score c ≤ 1 :=
  min_le_right _ _

/-- The first component of `calculate_match_score`, spelled out. -/
theorem match_score_fst (c : Candidate) (i : Internship) :
    (calculate_match_score c i).1
      = min ((calculate_skills_match c.skills i.required_skills * weight_skills
          + calculate_location_score c.location i.location * weight_location
          + sector_score c i * weight_sector
          + qualification_score c i * weight_qualification
          + calculate_diversity_score c * weight_diversity
          + academic_score c * weight_academic) * 100) 100 := rfl

theorem mkMatch_score (now : Nat) (c : Candidate) (i : Internship) :
    (mkMatch now c i).score = round1 (calculate_match_score c i).1 := rfl

theorem mkMatch_status (now : Nat) (c : Candidate) (i : Internship) :
    (mkMatch now c i).status = matchStatus (calculate_match_score c i).1 := rfl

theorem mkMatch_candidate_id (now : Nat) (c : Candidate) (i : Internship) :
    (mkMatch now c i).candidate_id = c.id := rfl

/-! ## Claim C1: the aggregate formula of the stored score -/

/-- Claim C1: the stored score of every match is the weighted sum of the
six sub-scores (weights 0.40 / 0.20 / 0.15 / 0.10 / 0.10 / 0.05, each
sub-score in [0,1]), times 100, capped at 100, rounded to one decimal. -/
theorem C1_match_score_formula (now : Nat) (candidate : Candidate) (internship : Internship)
    (h0 : 0 ≤ candidate.cgpa) (h10 : candidate.cgpa ≤ 10) :
    (mkMatch now candidate internship).score
      = round1 (min ((calculate_skills_match candidate.skills internship.required_skills * (40/100)
          + calculate_location_score candidate.location internship.location * (20/100)
          + sector_score candidate internship * (15/100)
          + qualification_score candidate internship * (10/100)
          + calculate_diversity_score candidate * (10/100)
          + academic_score candidate * (5/100)) * 100) 100)
    ∧ (0 ≤ calculate_skills_match candidate.skills internship.required_skills
       ∧ calculate_skills_match candidate.skills internship.required_skills ≤ 1)
    ∧ (0 ≤ calculate_location_score candidate.location internship.location
       ∧ calculate_location_score candidate.location internship.location ≤ 1)
    ∧ (0 ≤ sector_score candidate internship ∧ sector_score candidate internship ≤ 1)
    ∧ (0 ≤ qualification_score candidate internship
       ∧ qualification_score candidate internship ≤ 1)
    ∧ (0 ≤ calculate_diversity_score candidate ∧ calculate_diversity_score candidate ≤ 1)
    ∧ (0 ≤ academic_score candidate ∧ academic_score candidate ≤ 1) :=
  ⟨rfl,
   ⟨skills_match_nonneg _ _, skills_match_le_one _ _⟩,
   ⟨location_score_nonneg _ _, location_score_le_one _ _⟩,
   sector_score_bounds _ _,
   qualification_score_bounds _ _,
   ⟨diversity_score_nonneg _, diversity_score_le_one _⟩,
   ⟨academic_score_nonneg _ h0, academic_score_le_one _⟩⟩

/-- Witness for C1 on the first sample candidate and internship of the
repository's seed data. -/
theorem C1_match_score_formula_witness :
    (0:ℚ) ≤ 17/2 ∧ (17/2:ℚ) ≤ 10
    ∧ (0 ≤ calculate_diversity_score
        { id := 1, name := "Priya Sharma", skills := ["Python", "Data Analysis", "SQL"],
          qualifications := "B.Tech CSE", location := "Delhi", sector := "Technology",
          category := "General", district := "New Delhi", past_participation := false,
          cgpa := 17/2, experience := "Fresher" }
       ∧ calculate_diversity_score
        { id := 1, name := "Priya Sharma", skills := ["Python", "Data Analysis", "SQL"],
          qualifications := "B.Tech CSE", location := "Delhi", sector := "Technology",
          category := "General", district := "New Delhi", past_participation := false,
          cgpa := 17/2, experience := "Fresher" } ≤ 1) :=
  ⟨by norm_num, by norm_num,
   (C1_match_score_formula 0
     { id := 1, name := "Priya Sharma", skills := ["Python", "Data Analysis", "SQL"],
       qualifications := "B.Tech CSE", location := "Delhi", sector := "Technology",
       category := "General", district := "New Delhi", past_participation := false,
       cgpa := 17/2, experience := "Fresher" }
     { id := 1, company := "TechCorp India", title := "Data Science Intern",
       required_skills := ["Python", "Data Analysis", "Machine Learning"],
       location := "Delhi", sector := "Technology", capacity := 10,
       preferred_qualification := "B.Tech/MCA", stipend := 25000,
       duration := "6 months", type := "Full-time" }
     (by norm_num) (by norm_num)).2.2.2.2.2.1⟩

/-! ## Claim C3: the skills sub-score -/

/-- The per-required-skill scan of the source equals the spec's
first-related-candidate-skill contribution. -/
theorem matchOneSkill_eq_spec (req : String) (cs : List String) :
    matchOneSkill req cs = skill_contribution_spec req cs := by
  induction cs with
  | nil => rfl
  | cons c rest ih =>
    by_cases h1 : lcStr req = lcStr c
    · have hrel : relatedCI req c = true := by simp [relatedCI, h1]
      simp [matchOneSkill, skill_contribution_spec, List.find?_cons_of_pos _ hrel, h1]
    · by_cases h2 : (isInfixB (lcStr req).data (lcStr c).data
          || isInfixB (lcStr c).data (lcStr req).data) = true
      · have hrel : relatedCI req c = true := by simp [relatedCI, h2]
        simp [matchOneSkill, skill_contribution_spec, List.find?_cons_of_pos _ hrel, h1, h2]
      · by_cases h3 : are_similar_skills req c = true
        · have hrel : relatedCI req c = true := by simp [relatedCI, h3]
          simp [matchOneSkill, skill_contribution_spec, List.find?_cons_of_pos _ hrel, h1, h2, h3]
        · have hrel : ¬relatedCI req c = true := by
            simp [relatedCI, h1]
            constructor
            · simpa using h2
            · simpa using h3
          rw [skill_contribution_spec, List.find?_cons_of_neg _ hrel]
          rw [matchOneSkill, if_neg h1, if_neg ?hb, if_neg ?hc]
          case hb => simpa using h2
          case hc => simpa using h3
          rw [ih, skill_contribution_spec]

/-- Claim C3: the skills sub-score computed by the source equals the
spec's description (zero on an empty list; per-required first-related
contributions of 1.0 / 0.7 / 0.5 summed, divided by the required count,
capped at 1.0). -/
theorem C3_skills_match_spec (candidate_skills required_skills : List String) :
    calculate_skills_match candidate_skills required_skills
      = calculate_skills_match_spec candidate_skills required_skills := by
  unfold calculate_skills_match calculate_skills_match_spec
  simp only [matchOneSkill_eq_spec]

/-! ## Membership in the run output -/

theorem mem_sortDesc {m : Match} {l : List Match} : m ∈ sortDesc l ↔ m ∈ l :=
  (List.perm_insertionSort matchGE l).mem_iff

theorem mem_collectTop {m : Match} {now : Nat} {cands : List Candidate}
    {interns : List Internship} (hm : m ∈ collectTop now cands interns) :
    ∃ c ∈ cands, ∃ i ∈ interns, m = mkMatch now c i := by
  unfold collectTop at hm
  rw [List.mem_flatten] at hm
  obtain ⟨l, hl, hml⟩ := hm
  rw [List.mem_map] at hl
  obtain ⟨c, hc, rfl⟩ := hl
  have hm2 : m ∈ sortDesc (candidateMatches now c interns) :=
    (List.take_sublist _ _).mem hml
  have hm3 : m ∈ candidateMatches now c interns := mem_sortDesc.mp hm2
  unfold candidateMatches at hm3
  rw [List.mem_map] at hm3
  obtain ⟨i, hi, rfl⟩ := hm3
  exact ⟨c, hc, i, hi, rfl⟩

theorem mem_run {m : Match} {now : Nat} {cands : List Candidate}
    {interns : List Internship} (hm : m ∈ run_matching_algorithm now cands interns) :
    ∃ c ∈ cands, ∃ i ∈ interns, m = mkMatch now c i :=
  mem_collectTop (mem_sortDesc.mp hm)

/-! ## Claim C2: status tier versus the stored rounded score -/

/-- A pair engineered to score 69.98: stored rounded score 70.0 with
status "good". -/
def c2cand : Candidate :=
  { id := 21, name := "Boundary", skills := ["python"], qualifications := "q",
    location := "Delhi", sector := "Technology", category := "General",
    district := "d", past_participation := true, cgpa := 24/25, experience := "" }

def c2intern : Internship :=
  { id := 22, company := "Co", title := "T", required_skills := ["python"],
    location := "Delhi", sector := "Finance", capacity := 1,
    preferred_qualification := "x", stipend := 1000, duration := "3 months",
    type := "Full-time" }

/-- Counterexample to claim C2: this run stores a Match with rounded
score exactly 70.0 whose status is "good", because the tier is computed
from the unrounded 69.98 aggregate before rounding. -/
theorem C2_status_counterexample :
    run_matching_algorithm 0 [c2cand] [c2intern] = [mkMatch 0 c2cand c2intern]
    ∧ (mkMatch 0 c2cand c2intern).score = 70
    ∧ (mkMatch 0 c2cand c2intern).status = "good"
    ∧ (mkMatch 0 c2cand c2intern).status ≠ "excellent" := by
  refine ⟨?_, ?_, ?_, ?_⟩ <;> decide

theorem matchStatus_excellent_iff (s : ℚ) : matchStatus s = "excellent" ↔ 70 ≤ s := by
  unfold matchStatus
  split_ifs with h1 h2
  · simpa using h1
  · exact ⟨fun h => absurd h (by decide), fun h => absurd h h1⟩
  · exact ⟨fun h => absurd h (by decide), fun h => absurd h h1⟩

theorem matchStatus_good_iff (s : ℚ) : matchStatus s = "good" ↔ 50 ≤ s ∧ s < 70 := by
  unfold matchStatus
  split_ifs with h1 h2
  · exact ⟨fun h => absurd h (by decide), fun h => absurd h1 (not_le.mpr h.2)⟩
  · exact ⟨fun _ => ⟨h2, not_le.mp h1⟩, fun _ => rfl⟩
  · exact ⟨fun h => absurd h (by decide), fun h => absurd h.1 h2⟩

theorem matchStatus_fair_iff (s : ℚ) : matchStatus s = "fair" ↔ s < 50 := by
  unfold matchStatus
  split_ifs with h1 h2
  · refine ⟨fun h => absurd h (by decide), fun h => absurd h1 ?_⟩
    exact not_le.mpr (lt_trans h (by norm_num))
  · exact ⟨fun h => absurd h (by decide), fun h => absurd h2 (not_le.mpr h)⟩
  · exact ⟨fun _ => not_le.mp h2, fun _ => rfl⟩

/-- Amended claim C2: for every Match produced by a run, the status tier
is determined by the UNROUNDED aggregate of its pair ("excellent" iff
aggregate ≥ 70, "good" iff 50 ≤ aggregate < 70, "fair" iff < 50), while
the stored score is that aggregate rounded to one decimal — so a stored
70.0 may carry status "good". -/
theorem C2_status_from_unrounded (now : Nat) (cands : List Candidate)
    (interns : List Internship) (m : Match)
    (hm : m ∈ run_matching_algorithm now cands interns) :
    ∃ c ∈ cands, ∃ i ∈ interns,
      m.score = round1 (calculate_match_score c i).1
      ∧ (m.status = "excellent" ↔ 70 ≤ (calculate_match_score c i).1)
      ∧ (m.status = "good" ↔ 50 ≤ (calculate_match_score c i).1
          ∧ (calculate_match_score c i).1 < 70)
      ∧ (m.status = "fair" ↔ (calculate_match_score c i).1 < 50) := by
  obtain ⟨c, hc, i, hi, rfl⟩ := mem_run hm
  exact ⟨c, hc, i, hi, mkMatch_score now c i,
    (mkMatch_status now c i) ▸ matchStatus_excellent_iff _,
    (mkMatch_status now c i) ▸ matchStatus_good_iff _,
    (mkMatch_status now c i) ▸ matchStatus_fair_iff _⟩

/-- Witness for the amended C2 at the engineered boundary pair. -/
theorem C2_status_from_unrounded_witness :
    mkMatch 0 c2cand c2intern ∈ run_matching_algorithm 0 [c2cand] [c2intern]
    ∧ ∃ c ∈ [c2cand], ∃ i ∈ [c2intern],
        (mkMatch 0 c2cand c2intern).score = round1 (calculate_match_score c i).1
        ∧ ((mkMatch 0 c2cand c2intern).status = "excellent"
            ↔ 70 ≤ (calculate_match_score c i).1)
        ∧ ((mkMatch 0 c2cand c2intern).status = "good"
            ↔ 50 ≤ (calculate_match_score c i).1 ∧ (calculate_match_score c i).1 < 70)
        ∧ ((mkMatch 0 c2cand c2intern).status = "fair"
            ↔ (calculate_match_score c i).1 < 50) :=
  ⟨by decide, C2_status_from_unrounded 0 [c2cand] [c2intern] _ (by decide)⟩

/-! ## Claim C5: the aggregate score is bounded -/

/-- Claim C5: for every candidate with academic score in [0,10] the
aggregate score returned by the match scorer lies in [0, 100]. -/
theorem C5_score_bounds (candidate : Candidate) (internship : Internship)
    (h0 : 0 ≤ candidate.cgpa) (h10 : candidate.cgpa ≤ 10) :
    0 ≤ (calculate_match_score candidate internship).1
    ∧ (calculate_match_score candidate internship).1 ≤ 100 := by
  rw [match_score_fst]
  have t1 : 0 ≤ calculate_skills_match candidate.skills internship.required_skills
      * weight_skills :=
    mul_nonneg (skills_match_nonneg _ _) (by norm_num [weight_skills])
  have t2 : 0 ≤ calculate_location_score candidate.location internship.location
      * weight_location :=
    mul_nonneg (location_score_nonneg _ _) (by norm_num [weight_location])
  have t3 : 0 ≤ sector_score candidate internship * weight_sector :=
    mul_nonneg (sector_score_bounds _ _).1 (by norm_num [weight_sector])
  have t4 : 0 ≤ qualification_score candidate internship * weight_qualification :=
    mul_nonneg (qualification_score_bounds _ _).1 (by norm_num [weight_qualification])
  have t5 : 0 ≤ calculate_diversity_score candidate * weight_diversity :=
    mul_nonneg (diversity_score_nonneg _) (by norm_num [weight_diversity])
  have t6 : 0 ≤ academic_score candidate * weight_academic :=
    mul_nonneg (academic_score_nonneg _ h0) (by norm_num [weight_academic])
  constructor
  · exact le_min (by linarith) (by norm_num)
  · exact min_le_right _ _

/-- Witness for C5 on the second sample candidate and internship. -/
theorem C5_score_bounds_witness :
    (0:ℚ) ≤ 39/5 ∧ (39/5:ℚ) ≤ 10
    ∧ 0 ≤ (calculate_match_score
        { id := 2, name := "Rahul Kumar", skills := ["Marketing", "Content Writing", "Social Media"],
          qualifications := "MBA Marketing", location := "Mumbai", sector := "Marketing",
          category := "OBC", district := "Thane", past_participation := false,
          cgpa := 39/5, experience := "1 year" }
        { id := 2, company := "MarketPro Solutions", title := "Digital Marketing Intern",
          required_skills := ["Marketing", "Content Writing", "Analytics"],
          location := "Mumbai", sector := "Marketing", capacity := 5,
          preferred_qualification := "MBA/BBA", stipend := 20000,
          duration := "3 months", type := "Part-time" }).1 :=
  ⟨by norm_num, by norm_num,
   (C5_score_bounds
     { id := 2, name := "Rahul Kumar", skills := ["Marketing", "Content Writing", "Social Media"],
       qualifications := "MBA Marketing", location := "Mumbai", sector := "Marketing",
       category := "OBC", district := "Thane", past_participation := false,
       cgpa := 39/5, experience := "1 year" }
     { id := 2, company := "MarketPro Solutions", title := "Digital Marketing Intern",
       required_skills := ["Marketing", "Content Writing", "Analytics"],
       location := "Mumbai", sector := "Marketing", capacity := 5,
       preferred_qualification := "MBA/BBA", stipend := 20000,
       duration := "3 months", type := "Part-time" }
     (by norm_num) (by norm_num)).1⟩

/-! ## Claim C8: no input validation happens -/

/-- A malformed candidate: academic score outside [0,10]. -/
def c8cand : Candidate :=
  { id := 81, name := "Malformed", skills := ["python"], qualifications := "q",
    location := "Delhi", sector := "Technology", category := "General",
    district := "d", past_participation := true, cgpa := -5, experience := "" }

/-- A malformed internship: negative capacity and stipend. -/
def c8intern : Internship :=
  { id := 82, company := "Co", title := "T", required_skills := ["python"],
    location := "Delhi", sector := "Technology", capacity := -1,
    preferred_qualification := "B.Tech", stipend := -100, duration := "3 months",
    type := "Full-time" }

/-- Counterexample to claim C8: a snapshot containing malformed records
(academic score -5, capacity -1, stipend -100) is not rejected — the run
scores it and returns a match. -/
theorem C8_no_validation_counterexample :
    (run_matching_algorithm 0 [c8cand] [c8intern]).length = 1
    ∧ run_matching_algorithm 0 [c8cand] [c8intern] ≠ [] := by
  constructor <;> decide

/-- Amended claim C8: the run performs no validation at all — for every
snapshot, malformed or not, every candidate/opportunity pair is scored
and the run returns `|candidates| * min 3 |opportunities|` matches,
surfacing no error. -/
theorem C8_run_scores_everything (now : Nat) (cands : List Candidate)
    (interns : List Internship) :
    (run_matching_algorithm now cands interns).length
      = cands.length * min 3 interns.length := by
  unfold run_matching_algorithm sortDesc
  rw [List.length_insertionSort]
  unfold collectTop
  rw [List.length_flatten, List.map_map]
  have hlen : ∀ c : Candidate,
      (List.length ∘ fun c => (sortDesc (candidateMatches now c interns)).take 3) c
        = min 3 interns.length := by
    intro c
    simp only [Function.comp_apply, List.length_take, sortDesc,
      List.length_insertionSort, candidateMatches, List.length_map]
  rw [List.map_congr_left fun c _ => hlen c]
  simp [List.map_const', List.sum_replicate, mul_comm]

/-! ## Claim C9: determinism up to timestamps -/

/-- Replace a match's timestamp. -/
def retime (t : Nat) (m : Match) : Match := { m with timestamp := t }

/-- Everything in a Match except the timestamp. -/
def stripTime (m : Match) : Int × Int × ℚ × List (String × ℚ) × String :=
  (m.candidate_id, m.internship_id, m.score, m.factors, m.status)

theorem sortDesc_map_retime (t : Nat) (l : List Match) :
    sortDesc (l.map (retime t)) = (sortDesc l).map (retime t) :=
  (List.map_insertionSort matchGE matchGE (retime t) l fun _ _ _ _ => Iff.rfl).symm

theorem candidateMatches_retime (t t' : Nat) (c : Candidate) (interns : List Internship) :
    candidateMatches t c interns = (candidateMatches t' c interns).map (retime t) := by
  unfold candidateMatches
  rw [List.map_map]
  rfl

theorem collectTop_retime (t t' : Nat) (cands : List Candidate)
    (interns : List Internship) :
    collectTop t cands interns = (collectTop t' cands interns).map (retime t) := by
  unfold collectTop
  rw [List.map_flatten, List.map_map]
  congr 1
  refine List.map_congr_left fun c _ => ?_
  rw [candidateMatches_retime t t', sortDesc_map_retime]
  simp [List.map_take]

theorem run_retime (t t' : Nat) (cands : List Candidate) (interns : List Internship) :
    run_matching_algorithm t cands interns
      = (run_matching_algorithm t' cands interns).map (retime t) := by
  unfold run_matching_algorithm
  rw [collectTop_retime t t', sortDesc_map_retime]

/-- Claim C9: two runs over the same snapshot agree on everything except
the timestamps — same pairs, scores, factor breakdowns, statuses, and
order. -/
theorem C9_run_deterministic (cands : List Candidate) (interns : List Internship)
    (t1 t2 : Nat) :
    (run_matching_algorithm t1 cands interns).map stripTime
      = (run_matching_algorithm t2 cands interns).map stripTime := by
  rw [run_retime t1 t2, List.map_map]
  rfl

/-! ## Claim C4: selection and ranking policy -/

theorem sortDesc_perm (l : List Match) : List.Perm (sortDesc l) l :=
  List.perm_insertionSort matchGE l

theorem sortDesc_sorted (l : List Match) :
    (sortDesc l).Pairwise (fun a b => b.score ≤ a.score) :=
  List.sorted_insertionSort matchGE l

/-- Stability of the descending sort: the sublist of matches at any given
score is unchanged, i.e. equal-score matches keep their relative order. -/
theorem filter_score_sortDesc (s : ℚ) (l : List Match) :
    (sortDesc l).filter (fun m => decide (m.score = s))
      = l.filter (fun m => decide (m.score = s)) := by
  have hpw : (l.filter (fun m => decide (m.score = s))).Pairwise matchGE := by
    apply List.pairwise_of_forall_mem_list
    intro a ha b hb
    have ha' : a.score = s := of_decide_eq_true (List.mem_filter.mp ha).2
    have hb' : b.score = s := of_decide_eq_true (List.mem_filter.mp hb).2
    unfold matchGE
    rw [ha', hb']
  have hsub : List.Sublist (l.filter (fun m => decide (m.score = s))) (sortDesc l) :=
    List.sublist_insertionSort hpw (List.filter_sublist l)
  have hself : (l.filter (fun m => decide (m.score = s))).filter
      (fun m => decide (m.score = s)) = l.filter (fun m => decide (m.score = s)) :=
    List.filter_eq_self.mpr fun a ha => (List.mem_filter.mp ha).2
  have hsub2 : List.Sublist (l.filter (fun m => decide (m.score = s)))
      ((sortDesc l).filter (fun m => decide (m.score = s))) := by
    rw [← hself]
    exact hsub.filter _
  have hperm : List.Perm ((sortDesc l).filter (fun m => decide (m.score = s)))
      (l.filter (fun m => decide (m.score = s))) := (sortDesc_perm l).filter _
  exact (hsub2.eq_of_length hperm.length_eq.symm).symm

/-- With pairwise-distinct candidate ids, the retained matches carrying a
given candidate's id are exactly that candidate's top-3 block, so at most
3 of them. -/
theorem collect_filter_id_le (now : Nat) (interns : List Internship) :
    ∀ (cands : List Candidate), cands.Pairwise (fun a b => a.id ≠ b.id) →
      ∀ c ∈ cands,
        ((collectTop now cands interns).filter
          (fun m => decide (m.candidate_id = c.id))).length ≤ 3 := by
  intro cands
  induction cands with
  | nil => intro _ c hc; simp at hc
  | cons c0 rest ih =>
    intro hpw c hc
    have hcollect : collectTop now (c0 :: rest) interns
        = (sortDesc (candidateMatches now c0 interns)).take 3
          ++ collectTop now rest interns := by
      unfold collectTop
      simp
    rw [hcollect, List.filter_append, List.length_append]
    rcases List.mem_cons.mp hc with rfl | hcr
    · have h2 : (collectTop now rest interns).filter
          (fun m => decide (m.candidate_id = c.id)) = [] := by
        rw [List.filter_eq_nil_iff]
        intro m hm
        obtain ⟨c', hc', i, hi, rfl⟩ := mem_collectTop hm
        have hne : c.id ≠ c'.id := (List.pairwise_cons.mp hpw).1 c' hc'
        simp [mkMatch_candidate_id, hne.symm]
      rw [h2]
      simp only [List.length_nil, Nat.add_zero]
      exact le_trans (List.length_filter_le _ _)
        (by rw [List.length_take]; exact min_le_left _ _)
    · have h1 : ((sortDesc (candidateMatches now c0 interns)).take 3).filter
          (fun m => decide (m.candidate_id = c.id)) = [] := by
        rw [List.filter_eq_nil_iff]
        intro m hm
        have hm' : m ∈ candidateMatches now c0 interns :=
          mem_sortDesc.mp ((List.take_sublist _ _).mem hm)
        unfold candidateMatches at hm'
        obtain ⟨i, hi, rfl⟩ := List.mem_map.mp hm'
        have hne : c0.id ≠ c.id := (List.pairwise_cons.mp hpw).1 c hcr
        simp [mkMatch_candidate_id, hne]
      rw [h1]
      simpa using ih (List.pairwise_cons.mp hpw).2 c hcr

/-- Claim C4: a run scores the full cross product; per candidate the
matches are stably sorted by score descending (ties keep opportunity
iteration order) and truncated to the top 3; the retained matches are
returned as one list stably sorted non-increasing by score; with distinct
candidate ids, at most 3 matches per candidate survive. -/
theorem C4_run_ranking (now : Nat) (cands : List Candidate) (interns : List Internship)
    (hids : cands.Pairwise (fun a b => a.id ≠ b.id)) :
    List.Perm (run_matching_algorithm now cands interns) (collectTop now cands interns)
    ∧ (run_matching_algorithm now cands interns).Pairwise (fun a b => b.score ≤ a.score)
    ∧ (∀ s : ℚ, (run_matching_algorithm now cands interns).filter
          (fun m => decide (m.score = s))
        = (collectTop now cands interns).filter (fun m => decide (m.score = s)))
    ∧ (∀ c ∈ cands,
        candidateMatches now c interns = interns.map (mkMatch now c)
        ∧ List.Perm (sortDesc (candidateMatches now c interns))
            (candidateMatches now c interns)
        ∧ (sortDesc (candidateMatches now c interns)).Pairwise
            (fun a b => b.score ≤ a.score)
        ∧ (∀ s : ℚ, (sortDesc (candidateMatches now c interns)).filter
              (fun m => decide (m.score = s))
            = (candidateMatches now c interns).filter (fun m => decide (m.score = s)))
        ∧ ((sortDesc (candidateMatches now c interns)).take 3).length ≤ 3)
    ∧ (∀ c ∈ cands,
        ((run_matching_algorithm now cands interns).filter
          (fun m => decide (m.candidate_id = c.id))).length ≤ 3) := by
  refine ⟨sortDesc_perm _, sortDesc_sorted _, fun s => filter_score_sortDesc s _,
    fun c _ => ⟨rfl, sortDesc_perm _, sortDesc_sorted _,
      fun s => filter_score_sortDesc s _,
      by rw [List.length_take]; exact min_le_left _ _⟩,
    fun c hc => ?_⟩
  have hp : List.Perm
      ((run_matching_algorithm now cands interns).filter
        (fun m => decide (m.candidate_id = c.id)))
      ((collectTop now cands interns).filter
        (fun m => decide (m.candidate_id = c.id))) :=
    (sortDesc_perm _).filter _
  rw [hp.length_eq]
  exact collect_filter_id_le now interns cands hids c hc

def c4cand : Candidate :=
  { id := 41, name := "Amit Singh", skills := ["Java", "Spring Boot", "Microservices"],
    qualifications := "MCA", location := "Bangalore", sector := "Technology",
    category := "General", district := "Rural Karnataka", past_participation := false,
    cgpa := 91/10, experience := "2 years" }

def c4int1 : Internship :=
  { id := 42, company := "DevSolutions", title := "Backend Developer Intern",
    required_skills := ["Java", "Spring Boot", "Database"], location := "Bangalore",
    sector := "Technology", capacity := 12, preferred_qualification := "B.Tech/MCA",
    stipend := 28000, duration := "6 months", type := "Full-time" }

def c4int2 : Internship :=
  { id := 43, company := "FinanceHub", title := "Financial Analyst Intern",
    required_skills := ["Finance", "Excel", "Financial Modeling"], location := "Ahmedabad",
    sector := "Finance", capacity := 8, preferred_qualification := "B.Com/MBA Finance",
    stipend := 22000, duration := "4 months", type := "Full-time" }

/-- Witness for C4 on a concrete snapshot of one candidate and two
internships. -/
theorem C4_run_ranking_witness :
    ([c4cand].Pairwise (fun a b => a.id ≠ b.id))
    ∧ (List.Perm (run_matching_algorithm 5 [c4cand] [c4int1, c4int2])
          (collectTop 5 [c4cand] [c4int1, c4int2])
      ∧ (run_matching_algorithm 5 [c4cand] [c4int1, c4int2]).Pairwise
          (fun a b => b.score ≤ a.score)
      ∧ (∀ s : ℚ, (run_matching_algorithm 5 [c4cand] [c4int1, c4int2]).filter
            (fun m => decide (m.score = s))
          = (collectTop 5 [c4cand] [c4int1, c4int2]).filter
              (fun m => decide (m.score = s)))
      ∧ (∀ c ∈ [c4cand],
          candidateMatches 5 c [c4int1, c4int2] = [c4int1, c4int2].map (mkMatch 5 c)
          ∧ List.Perm (sortDesc (candidateMatches 5 c [c4int1, c4int2]))
              (candidateMatches 5 c [c4int1, c4int2])
          ∧ (sortDesc (candidateMatches 5 c [c4int1, c4int2])).Pairwise
              (fun a b => b.score ≤ a.score)
          ∧ (∀ s : ℚ, (sortDesc (candidateMatches 5 c [c4int1, c4int2])).filter
                (fun m => decide (m.score = s))
              = (candidateMatches 5 c [c4int1, c4int2]).filter
                  (fun m => decide (m.score = s)))
          ∧ ((sortDesc (candidateMatches 5 c [c4int1, c4int2])).take 3).length ≤ 3)
      ∧ (∀ c ∈ [c4cand],
          ((run_matching_algorithm 5 [c4cand] [c4int1, c4int2]).filter
            (fun m => decide (m.candidate_id = c.id))).length ≤ 3)) :=
  ⟨by decide, C4_run_ranking 5 [c4cand] [c4int1, c4int2] (by decide)⟩

/-- Witness for C10 at a whitespace-only preferred qualification. -/
theorem C10_empty_qualification_tokens_witness :
    (∀ ch ∈ ("  " : String).data, ch.isWhitespace)
    ∧ qualification_score
        { id := 10, name := "W", skills := ["Python"], qualifications := "B.Tech",
          location := "Delhi", sector := "Technology", category := "General",
          district := "Delhi", past_participation := false, cgpa := 8, experience := "" }
        { id := 10, company := "Co", title := "T", required_skills := ["Python"],
          location := "Delhi", sector := "Technology", capacity := 1,
          preferred_qualification := "  ", stipend := 1000, duration := "3 months",
          type := "Full-time" } = 1/2 :=
  ⟨by decide,
   (C10_empty_qualification_tokens _ _ (by decide)).2.1⟩
